import Mathlib

/-!
Shallow embedding of `src/main.rs` of the sops-encryption-generator action.

The program is a batch re-encryption tool: it imports a primary GPG private
key, collects public keys from a JSON roster plus an optional Flux key,
imports them into a GPG home directory, locates secret files by glob, and
runs a decrypt-verify / in-place-encrypt cycle per file.

External effects (base64 decoding, the filesystem, the `gpg` and `sops`
subprocesses, glob enumeration, JSON parsing) are modelled by oracle data
carried in a `World` record; the control flow of the Rust source is
translated directly.  Each function additionally returns a trace of the
externally visible events it performs, so that ordering and frame claims
can be stated.
-/

namespace SopsGen

/-- `struct User { login, gpg_keys_base64 }` from main.rs. -/
structure User where
  login : String
  gpg_keys_base64 : List String
deriving DecidableEq, Repr

/-- `struct UsersData { users }` from main.rs. -/
structure UsersData where
  users : List User
deriving DecidableEq, Repr

/-- Outcome of `base64 decode` followed by `String::from_utf8` on one
encoded key: either of the two conversions fails, or a decoded string is
produced. -/
inductive DecodeResult
  | decodeErr
  | utf8Err
  | ok (s : String)
deriving DecidableEq, Repr

/-- Outcome of spawning `gpg --import`: the spawn itself fails
(`Command::output` returns `Err`), the process runs but exits with a
failure status, or it succeeds. -/
inductive GpgResult
  | spawnErr
  | rejected
  | accepted
deriving DecidableEq, Repr

/-- Outcome of spawning a `sops` subprocess (`-d` or `-e -i`). -/
inductive CmdResult
  | spawnErr
  | failed
  | succeeded
deriving DecidableEq, Repr

/-- A filesystem path produced by glob enumeration, with the one attribute
the program inspects: whether it `is_file()`. -/
structure FsPath where
  name : String
  isFile : Bool
deriving DecidableEq, Repr

/-- The `INPUT_PUBLIC_KEYS` string as the program observes it: either the
string is empty (the parse is skipped), or it is non-empty and
`serde_json::from_str` yields the given result. -/
inductive UsersDataInput
  | emptyStr
  | jsonParse (r : Except String UsersData)

/-- Oracle for the external effects touching one public key inside
`import_gpg_keys`: its decode outcome, whether `fs::write` of the temp
file succeeds, and the outcome of the `gpg --import` subprocess. -/
structure KeySpec where
  decode : DecodeResult
  writeOk : Bool
  gpg : GpgResult

/-- Oracle for the two `sops` invocations on one target file. -/
structure FileSpec where
  decrypt : CmdResult
  encrypt : CmdResult

/-- `find_secret_files` input: whether `glob(pattern)` itself succeeds
(`Ok` iterator vs pattern error), and the enumerated entries, each either
an `Ok(path)` or a per-entry glob error. -/
structure GlobInput where
  valid : Bool
  entries : List (Except String FsPath)

/-- `fn find_secret_files`: on a malformed pattern, fail; otherwise keep
exactly the `Ok` entries that are regular files, in enumeration order
(per-entry errors are warnings and are skipped). -/
def globLoop : List (Except String FsPath) → List FsPath
  | [] => []
  | Except.ok p :: rest => if p.isFile then p :: globLoop rest else globLoop rest
  | Except.error _ :: rest => globLoop rest

def find_secret_files (g : GlobInput) : Except String (List FsPath) :=
  if g.valid then Except.ok (globLoop g.entries)
  else Except.error "Failed to read glob pattern"

/-- `fn collect_public_keys`: if the users string is non-empty, parse it
(a parse failure is an error); extend the key list with each user's keys
in order; finally push the flux key if it is non-empty. -/
def collect_public_keys (users_data : UsersDataInput) (flux_key : String) :
    Except String (List String) :=
  match users_data with
  | UsersDataInput.emptyStr =>
      let keys : List String := []
      Except.ok (if flux_key.isEmpty then keys else keys ++ [flux_key])
  | UsersDataInput.jsonParse (Except.error e) =>
      Except.error ("Failed to parse users data: " ++ e)
  | UsersDataInput.jsonParse (Except.ok users) =>
      let keys := users.users.foldl (fun ks user => ks ++ user.gpg_keys_base64) []
      Except.ok (if flux_key.isEmpty then keys else keys ++ [flux_key])

/-- Events `import_gpg_keys` performs on the trust store, indexed by the
position of the key in the input slice. -/
inductive ImportEvent
  | wroteKeyFile (idx : Nat)
  | ranGpgImport (idx : Nat)
  | warnedImportFailed (idx : Nat)
deriving DecidableEq, Repr

/-- `fn import_gpg_keys`, one iteration per key with its running index.
Decode, UTF-8, write and spawn failures propagate with `?` (aborting the
whole loop); a failing `gpg --import` exit status is only a warning and
the loop continues. Returns the event trace together with the `Result`. -/
def import_gpg_keys_go (behave : String → KeySpec) :
    Nat → List String → List ImportEvent × Except String Unit
  | _, [] => ([], Except.ok ())
  | idx, k :: rest =>
      let b := behave k
      match b.decode with
      | DecodeResult.decodeErr =>
          ([], Except.error ("Failed to decode GPG key " ++ toString idx))
      | DecodeResult.utf8Err =>
          ([], Except.error ("Failed to convert GPG key " ++ toString idx ++ " to string"))
      | DecodeResult.ok _ =>
          if b.writeOk then
            match b.gpg with
            | GpgResult.spawnErr =>
                ([ImportEvent.wroteKeyFile idx],
                 Except.error ("Failed to import GPG key " ++ toString idx))
            | GpgResult.rejected =>
                let r := import_gpg_keys_go behave (idx + 1) rest
                (ImportEvent.wroteKeyFile idx :: ImportEvent.ranGpgImport idx ::
                   ImportEvent.warnedImportFailed idx :: r.1, r.2)
            | GpgResult.accepted =>
                let r := import_gpg_keys_go behave (idx + 1) rest
                (ImportEvent.wroteKeyFile idx :: ImportEvent.ranGpgImport idx :: r.1, r.2)
          else ([], Except.error ("Failed to write GPG key " ++ toString idx))

def import_gpg_keys (behave : String → KeySpec) (keys : List String) :
    List ImportEvent × Except String Unit :=
  import_gpg_keys_go behave 0 keys

/-- Events `reencrypt_file` performs on one file: running `sops -d`
(read-only) and running `sops -e -i` (the only mutation of the file). -/
inductive FileEvent
  | ranDecrypt
  | ranEncrypt
deriving DecidableEq, Repr

/-- `fn reencrypt_file`: run `sops -d` first; only if it succeeds, run
`sops -e -i`. Either failure is reported as an error for this file. -/
def reencrypt_file (b : FileSpec) : List FileEvent × Except String Unit :=
  match b.decrypt with
  | CmdResult.spawnErr => ([], Except.error "Failed to decrypt file")
  | CmdResult.failed => ([FileEvent.ranDecrypt], Except.error "Failed to decrypt")
  | CmdResult.succeeded =>
      match b.encrypt with
      | CmdResult.spawnErr =>
          ([FileEvent.ranDecrypt], Except.error "Failed to re-encrypt file")
      | CmdResult.failed =>
          ([FileEvent.ranDecrypt, FileEvent.ranEncrypt],
           Except.error "Failed to re-encrypt")
      | CmdResult.succeeded =>
          ([FileEvent.ranDecrypt, FileEvent.ranEncrypt], Except.ok ())

/-- Externally visible events of a whole run of `main`, in order:
creating the GPG home, writing the private-key temp file, running
`gpg --import` on it, the public-key import events, locating the secret
files (carrying the located list), and the per-file `sops` events. -/
inductive MainEvent
  | createdGpgHome
  | wrotePrivateKey
  | ranGpgImportPrivate
  | imp (e : ImportEvent)
  | located (fs : List FsPath)
  | file (f : FsPath) (e : FileEvent)
deriving DecidableEq, Repr

/-- How a run of `main` terminates: `Ok(())` (exit status 0), an `anyhow`
error propagated out of `main` (non-zero exit), or the explicit
`std::process::exit(1)` taken when some file failed. -/
inductive MainOutcome
  | ok
  | fatal (msg : String)
  | filesFailed
deriving DecidableEq, Repr

/-- The process exit status each `MainOutcome` produces. -/
def MainOutcome.exitCode : MainOutcome → Nat
  | MainOutcome.ok => 0
  | MainOutcome.fatal _ => 1
  | MainOutcome.filesFailed => 1

/-- Oracle record for one run: the environment variables `main` reads and
the outcomes of every external effect it can perform. -/
structure World where
  inputPrivateKey : Option DecodeResult
  inputPublicKeys : Option UsersDataInput
  inputFluxKey : Option String
  createDirOk : Bool
  writePrivOk : Bool
  gpgPrivate : GpgResult
  keyBehavior : String → KeySpec
  globInput : GlobInput
  fileBehavior : FsPath → FileSpec

/-- The default substituted for an absent `INPUT_PUBLIC_KEYS` variable:
the literal string `{"users":[]}`, which parses to an empty roster. -/
def defaultPublicKeysJson : UsersDataInput :=
  UsersDataInput.jsonParse (Except.ok ⟨[]⟩)

/-- The re-encryption loop of `main`: each file is run through
`reencrypt_file`; an `Ok` bumps `success_count`, an `Err` is printed and
bumps `error_count`, and the loop continues with the next file.  Returns
the per-file event trace and the two counters. -/
def processFiles (behave : FsPath → FileSpec) :
    List FsPath → List MainEvent × Nat × Nat
  | [] => ([], 0, 0)
  | f :: rest =>
      let r := reencrypt_file (behave f)
      let tl := processFiles behave rest
      (r.1.map (MainEvent.file f) ++ tl.1,
       match r.2 with
       | Except.ok _ => (tl.2.1 + 1, tl.2.2)
       | Except.error _ => (tl.2.1, tl.2.2 + 1))

/-- The tail of `fn main` from `find_secret_files` on: locate the secret
files (a pattern error is fatal), return `Ok` at once when none match,
otherwise run the per-file loop and take `exit(1)` when any file failed.
`pre` is the event trace accumulated before this point. -/
def mainTail (pre : List MainEvent) (gi : GlobInput) (behave : FsPath → FileSpec) :
    List MainEvent × MainOutcome :=
  match find_secret_files gi with
  | Except.error e => (pre, MainOutcome.fatal e)
  | Except.ok secret_files =>
      if secret_files.isEmpty then
        (pre ++ [MainEvent.located secret_files], MainOutcome.ok)
      else
        let pr := processFiles behave secret_files
        if pr.2.2 > 0 then
          (pre ++ [MainEvent.located secret_files] ++ pr.1, MainOutcome.filesFailed)
        else (pre ++ [MainEvent.located secret_files] ++ pr.1, MainOutcome.ok)

/-- `fn main`: read inputs (a missing `INPUT_PRIVATE_KEY` is fatal,
`INPUT_PUBLIC_KEYS` and `INPUT_FLUX_KEY` default), create the GPG home,
decode/write/import the private key (each failure fatal), collect the
public keys, import them if any, then continue with `mainTail`. -/
def main (w : World) : List MainEvent × MainOutcome :=
  match w.inputPrivateKey with
  | none => ([], MainOutcome.fatal "INPUT_PRIVATE_KEY environment variable required")
  | some pk =>
    let users_data := w.inputPublicKeys.getD defaultPublicKeysJson
    let flux_key := w.inputFluxKey.getD ""
    if w.createDirOk then
      match pk with
      | DecodeResult.decodeErr =>
          ([MainEvent.createdGpgHome], MainOutcome.fatal "Failed to decode private key")
      | DecodeResult.utf8Err =>
          ([MainEvent.createdGpgHome],
           MainOutcome.fatal "Failed to convert private key to string")
      | DecodeResult.ok _ =>
        if w.writePrivOk then
          match w.gpgPrivate with
          | GpgResult.spawnErr =>
              ([MainEvent.createdGpgHome, MainEvent.wrotePrivateKey],
               MainOutcome.fatal "Failed to import private key")
          | GpgResult.rejected =>
              ([MainEvent.createdGpgHome, MainEvent.wrotePrivateKey,
                MainEvent.ranGpgImportPrivate],
               MainOutcome.fatal "Failed to import private key: gpg rejected")
          | GpgResult.accepted =>
            let tr0 : List MainEvent :=
              [MainEvent.createdGpgHome, MainEvent.wrotePrivateKey,
               MainEvent.ranGpgImportPrivate]
            match collect_public_keys users_data flux_key with
            | Except.error e => (tr0, MainOutcome.fatal e)
            | Except.ok public_keys =>
              let ipr :=
                if public_keys.isEmpty then ([], Except.ok ())
                else import_gpg_keys w.keyBehavior public_keys
              let tr1 := tr0 ++ ipr.1.map MainEvent.imp
              match ipr.2 with
              | Except.error e => (tr1, MainOutcome.fatal e)
              | Except.ok _ => mainTail tr1 w.globInput w.fileBehavior
        else ([MainEvent.createdGpgHome], MainOutcome.fatal "Failed to write private key")
    else ([], MainOutcome.fatal "Failed to create GPG home directory")

/-- Whether `reencrypt_file` reports success for a file with the given
external behaviour. -/
def fileOk (b : FileSpec) : Bool :=
  match (reencrypt_file b).2 with
  | Except.ok _ => true
  | Except.error _ => false

section Lemmas

/-- Extending an accumulator with each user's keys in order equals the
accumulator followed by the concatenation of all per-user key lists. -/
theorem foldl_extend_keys (l : List User) (acc : List String) :
    l.foldl (fun ks user => ks ++ user.gpg_keys_base64) acc
      = acc ++ (l.map User.gpg_keys_base64).flatten := by
  induction l generalizing acc with
  | nil => simp
  | cons u t ih => simp [ih, List.append_assoc]

/-- Every path kept by the glob loop is a regular file. -/
theorem globLoop_isFile (l : List (Except String FsPath)) :
    ∀ p ∈ globLoop l, p.isFile = true := by
  induction l with
  | nil => simp [globLoop]
  | cons e t ih =>
      cases e with
      | ok p =>
          by_cases hp : p.isFile
          · intro q hq
            rw [globLoop, if_pos hp] at hq
            rcases List.mem_cons.mp hq with hq | hq
            · simpa [hq] using hp
            · exact ih q hq
          · intro q hq
            rw [globLoop, if_neg hp] at hq
            exact ih q hq
      | error m => intro q hq; rw [globLoop] at hq; exact ih q hq

/-- Every event emitted by the re-encryption loop is a per-file event. -/
theorem processFiles_events (behave : FsPath → FileSpec) (l : List FsPath) :
    ∀ x ∈ (processFiles behave l).1, ∃ f e, x = MainEvent.file f e := by
  induction l with
  | nil => simp [processFiles]
  | cons f t ih =>
      intro x hx
      rw [processFiles] at hx
      rcases List.mem_append.mp hx with hx | hx
      · rcases List.mem_map.mp hx with ⟨e, _, he⟩
        exact ⟨f, e, he.symm⟩
      · exact ih x hx

/-- The error count of the loop is zero exactly when every file's
re-encryption succeeds. -/
theorem processFiles_err_zero (behave : FsPath → FileSpec) (l : List FsPath) :
    (processFiles behave l).2.2 = 0 ↔ ∀ f ∈ l, fileOk (behave f) = true := by
  induction l with
  | nil => simp [processFiles]
  | cons f t ih =>
      rw [processFiles]
      cases hr : (reencrypt_file (behave f)).2 with
      | ok u => simp [hr, ih, fileOk]
      | error m => simp [hr, fileOk]

end Lemmas

/-- Three concrete target files and a behaviour under which the middle
one fails phase-1 decryption and the others fully succeed. -/
def pA : FsPath := ⟨"a/application.secrets.env", true⟩

def pB : FsPath := ⟨"b/application.secrets.env", true⟩

def pC : FsPath := ⟨"c/application.secrets.env", true⟩

def behave3 : FsPath → FileSpec := fun p =>
  if p = pB then ⟨CmdResult.failed, CmdResult.succeeded⟩
  else ⟨CmdResult.succeeded, CmdResult.succeeded⟩

/-- C1: a phase-1 or phase-2 failure on one file does not halt the batch:
for every file list the final counters are exactly the number of files
whose cycle succeeds and the number whose cycle fails (so every file after
a failing one is still processed), and on three files where the second
fails phase-1 verification the batch reports 2 successes and 1 failure. -/
theorem batch_continues_past_per_file_failure :
    (∀ (behave : FsPath → FileSpec) (l : List FsPath),
        (processFiles behave l).2.1 = (l.filter fun f => fileOk (behave f)).length
        ∧ (processFiles behave l).2.2 = (l.filter fun f => !fileOk (behave f)).length)
    ∧ (processFiles behave3 [pA, pB, pC]).2 = (2, 1) := by
  constructor
  · intro behave l
    induction l with
    | nil => simp [processFiles]
    | cons f t ih =>
        rw [processFiles]
        cases hr : (reencrypt_file (behave f)).2 with
        | ok u => simp [hr, fileOk, List.filter, ih.1, ih.2]
        | error m => simp [hr, fileOk, List.filter, ih.1, ih.2]
  · decide

/-- C9: each target file contributes exactly one outcome: the success
count plus the error count equals the number of located files. -/
theorem success_plus_error_equals_file_count
    (behave : FsPath → FileSpec) (l : List FsPath) :
    (processFiles behave l).2.1 + (processFiles behave l).2.2 = l.length := by
  induction l with
  | nil => simp [processFiles]
  | cons f t ih =>
      rw [processFiles]
      cases hr : (reencrypt_file (behave f)).2 with
      | ok u => simpa [hr] using by omega
      | error m => simpa [hr] using by omega

/-- C4: the in-place encrypt command runs on a file only when the
decrypt-verify command succeeded, and after a phase-1 failure no mutating
command is run on the file at all. -/
theorem encrypt_only_after_decrypt_succeeds (b : FileSpec) :
    (FileEvent.ranEncrypt ∈ (reencrypt_file b).1 → b.decrypt = CmdResult.succeeded)
    ∧ (b.decrypt ≠ CmdResult.succeeded →
        FileEvent.ranEncrypt ∉ (reencrypt_file b).1) := by
  cases hb : b.decrypt <;> cases he : b.encrypt <;>
    simp [reencrypt_file, hb, he]

/-- Witness for C4 at a concrete behaviour whose phase 1 fails. -/
theorem encrypt_only_after_decrypt_succeeds_witness :
    FileEvent.ranEncrypt ∉
      (reencrypt_file ⟨CmdResult.failed, CmdResult.succeeded⟩).1 :=
  (encrypt_only_after_decrypt_succeeds ⟨CmdResult.failed, CmdResult.succeeded⟩).2
    (by decide)

/-- C6: on a well-formed roster the Key Collector returns exactly the
per-user key lists concatenated in user-then-key order with the
shared-service key (if non-empty) appended last and not deduplicated, and
its length is the total per-user key count plus one when that key is
supplied. -/
theorem key_collector_order_and_length (u : UsersData) (f : String) :
    collect_public_keys (UsersDataInput.jsonParse (Except.ok u)) f
      = Except.ok ((u.users.map User.gpg_keys_base64).flatten
          ++ (if f.isEmpty then [] else [f]))
    ∧ ((u.users.map User.gpg_keys_base64).flatten
          ++ (if f.isEmpty then [] else [f])).length
        = (u.users.map fun x => x.gpg_keys_base64.length).sum
          + (if f.isEmpty then 0 else 1) := by
  constructor
  · by_cases hf : f.isEmpty <;>
      simp [collect_public_keys, foldl_extend_keys, hf]
  · by_cases hf : f.isEmpty <;>
      · simp [hf, List.length_flatten]
        rfl

/-- C7: with a well-formed pattern the File Locator returns only regular
files (directories are dropped), and an enumeration with no matches
yields the empty list rather than an error. -/
theorem file_locator_returns_only_regular_files
    (g : GlobInput) (h : g.valid = true) :
    ∃ L, find_secret_files g = Except.ok L
      ∧ (∀ p ∈ L, p.isFile = true)
      ∧ (g.entries = [] → L = []) := by
  refine ⟨globLoop g.entries, by simp [find_secret_files, h], globLoop_isFile _, ?_⟩
  intro h0
  rw [h0, globLoop]

/-- Concrete glob input: one regular file, one directory, one per-entry
error. -/
def gW : GlobInput :=
  ⟨true, [Except.ok ⟨"x/application.secrets.env", true⟩,
          Except.ok ⟨"x", false⟩,
          Except.error "permission denied"]⟩

/-- Witness for C7 at the concrete glob input. -/
theorem file_locator_returns_only_regular_files_witness :
    ∃ L, find_secret_files gW = Except.ok L
      ∧ (∀ p ∈ L, p.isFile = true)
      ∧ (gW.entries = [] → L = []) :=
  file_locator_returns_only_regular_files gW rfl

/-- C8: a present-but-malformed roster makes the Key Collector fail with
an error and contribute no keys, while an empty roster string, or the
default empty roster substituted for an absent one, yields only the
(optional) shared-service key and no error. -/
theorem malformed_roster_errors_empty_roster_ok (e f : String) :
    collect_public_keys (UsersDataInput.jsonParse (Except.error e)) f
      = Except.error ("Failed to parse users data: " ++ e)
    ∧ collect_public_keys UsersDataInput.emptyStr f
      = Except.ok (if f.isEmpty then [] else [f])
    ∧ collect_public_keys defaultPublicKeysJson f
      = Except.ok (if f.isEmpty then [] else [f]) := by
  refine ⟨rfl, ?_, ?_⟩ <;>
    by_cases hf : f.isEmpty <;>
      simp [collect_public_keys, defaultPublicKeysJson, hf]

/-- Concrete key behaviour under which the first key fails base64
decoding and the second decodes and imports cleanly. -/
def cexKeySpec : String → KeySpec := fun s =>
  if s = "badkey" then ⟨DecodeResult.decodeErr, true, GpgResult.accepted⟩
  else ⟨DecodeResult.ok "decoded", true, GpgResult.accepted⟩

/-- Counterexample to C2 as stated: with two non-primary keys where the
first fails base64 decoding, the importer returns an error (the run
aborts) and the second key is never attempted — the decode failure is not
a mere warning. -/
theorem nonprimary_decode_failure_aborts_cex :
    (import_gpg_keys cexKeySpec ["badkey", "goodkey"]).2
      = Except.error "Failed to decode GPG key 0"
    ∧ ImportEvent.ranGpgImport 1 ∉ (import_gpg_keys cexKeySpec ["badkey", "goodkey"]).1 := by
  refine ⟨?_, ?_⟩
  · show (import_gpg_keys_go cexKeySpec 0 ["badkey", "goodkey"]).2 = _
    rw [import_gpg_keys_go]
    rfl
  · simp [import_gpg_keys, import_gpg_keys_go, cexKeySpec]

/-- Induction form of the amended C2 over the indexed loop. -/
theorem import_gpg_keys_go_rejections (behave : String → KeySpec)
    (keys : List String) (idx : Nat)
    (h : ∀ k ∈ keys, (∃ s, (behave k).decode = DecodeResult.ok s)
        ∧ (behave k).writeOk = true ∧ (behave k).gpg ≠ GpgResult.spawnErr) :
    (import_gpg_keys_go behave idx keys).2 = Except.ok ()
    ∧ (∀ j, j < keys.length →
        ImportEvent.ranGpgImport (idx + j) ∈ (import_gpg_keys_go behave idx keys).1) := by
  induction keys generalizing idx with
  | nil => simp [import_gpg_keys_go]
  | cons k rest ih =>
      obtain ⟨⟨s, hs⟩, hw, hg⟩ := h k (List.mem_cons_self k rest)
      have hrest := ih (idx + 1) (fun x hx => h x (List.mem_cons_of_mem k hx))
      cases hgpg : (behave k).gpg with
      | spawnErr => exact absurd hgpg hg
      | rejected =>
          rw [import_gpg_keys_go, hs, if_pos hw, hgpg]
          refine ⟨hrest.1, ?_⟩
          intro j hj
          cases j with
          | zero => simp
          | succ j =>
              have := hrest.2 j (by simpa using hj)
              simp only [List.mem_cons]
              right; right; right
              simpa [Nat.add_assoc, Nat.add_comm 1 j] using this
      | accepted =>
          rw [import_gpg_keys_go, hs, if_pos hw, hgpg]
          refine ⟨hrest.1, ?_⟩
          intro j hj
          cases j with
          | zero => simp
          | succ j =>
              have := hrest.2 j (by simpa using hj)
              simp only [List.mem_cons]
              right; right
              simpa [Nat.add_assoc, Nat.add_comm 1 j] using this

/-- C2 (amended): when every non-primary key decodes (and its temp-file
write and `gpg` spawn succeed), a `gpg --import` rejection of any key is
only a warning — the importer still returns `Ok` and every key in the
sequence, including those after a rejected one, is attempted. -/
theorem nonprimary_gpg_rejection_only_warns (behave : String → KeySpec)
    (keys : List String)
    (h : ∀ k ∈ keys, (∃ s, (behave k).decode = DecodeResult.ok s)
        ∧ (behave k).writeOk = true ∧ (behave k).gpg ≠ GpgResult.spawnErr) :
    (import_gpg_keys behave keys).2 = Except.ok ()
    ∧ (∀ j, j < keys.length →
        ImportEvent.ranGpgImport j ∈ (import_gpg_keys behave keys).1) := by
  have := import_gpg_keys_go_rejections behave keys 0 h
  simpa [import_gpg_keys] using this

/-- Concrete behaviour for the C2 witness: the first key is rejected by
`gpg`, the second accepted; both decode. -/
def wKeySpec : String → KeySpec := fun s =>
  if s = "k1" then ⟨DecodeResult.ok "a", true, GpgResult.rejected⟩
  else ⟨DecodeResult.ok "b", true, GpgResult.accepted⟩

/-- Witness for the amended C2: a rejected first key does not stop the
second from being attempted and the importer returns `Ok`. -/
theorem nonprimary_gpg_rejection_only_warns_witness :
    (import_gpg_keys wKeySpec ["k1", "k2"]).2 = Except.ok ()
    ∧ ImportEvent.ranGpgImport 1 ∈ (import_gpg_keys wKeySpec ["k1", "k2"]).1 := by
  have h := nonprimary_gpg_rejection_only_warns wKeySpec ["k1", "k2"]
    (by
      intro k hk
      rcases List.mem_cons.mp hk with hk | hk
      · subst hk
        exact ⟨⟨"a", rfl⟩, rfl, by decide⟩
      · have hk2 : k = "k2" := by simpa using hk
        subst hk2
        exact ⟨⟨"b", rfl⟩, rfl, by decide⟩)
  exact ⟨h.1, h.2 1 (by decide)⟩

/-- No `located` event is emitted by the re-encryption loop. -/
theorem not_located_mem_processFiles (behave : FsPath → FileSpec)
    (l : List FsPath) (fs : List FsPath) :
    MainEvent.located fs ∉ (processFiles behave l).1 := by
  intro hx
  rcases processFiles_events behave l _ hx with ⟨f, e, he⟩
  simp at he

/-- No per-file event is emitted before the re-encryption loop. -/
theorem not_file_mem_imp_map (itr : List ImportEvent) (f : FsPath) (e : FileEvent) :
    MainEvent.file f e ∉ itr.map MainEvent.imp := by
  simp

/-- C5: a missing primary credential, a malformed primary credential
encoding, or a rejected primary-key import makes the run abort with a
fatal error before any target file is located or processed. -/
theorem primary_credential_failure_aborts_before_locating (w : World)
    (h : w.inputPrivateKey = none
       ∨ w.inputPrivateKey = some DecodeResult.decodeErr
       ∨ w.inputPrivateKey = some DecodeResult.utf8Err
       ∨ w.gpgPrivate = GpgResult.rejected) :
    (∃ m, (main w).2 = MainOutcome.fatal m)
    ∧ (∀ fs, MainEvent.located fs ∉ (main w).1)
    ∧ (∀ f e, MainEvent.file f e ∉ (main w).1) := by
  obtain ⟨ipk, ipks, iflux, cdir, wpriv, gpriv, kb, gi, fb⟩ := w
  cases ipk with
  | none => simp [main]
  | some pk =>
      simp only [World.inputPrivateKey, World.gpgPrivate] at h
      cases pk <;> cases cdir <;> cases wpriv <;> cases gpriv <;>
        simp_all [main]

/-- Concrete world with the primary credential absent. -/
def w5 : World :=
  ⟨none, none, none, true, true, GpgResult.accepted,
   fun _ => ⟨DecodeResult.ok "", true, GpgResult.accepted⟩,
   ⟨true, []⟩,
   fun _ => ⟨CmdResult.succeeded, CmdResult.succeeded⟩⟩

/-- Witness for C5 at the concrete world without a primary credential. -/
theorem primary_credential_failure_aborts_before_locating_witness :
    ∃ m, (main w5).2 = MainOutcome.fatal m :=
  (primary_credential_failure_aborts_before_locating w5 (Or.inl rfl)).1

/-- C10: when the primary credential decodes, is written and is imported
successfully but the roster then fails to parse, the run aborts with the
roster error after the trust store has already been mutated by the
primary-key import (the key file was written and `gpg --import` ran), and
no target file has been located or processed. -/
theorem roster_error_after_primary_import (w : World) (s e : String)
    (hpk : w.inputPrivateKey = some (DecodeResult.ok s))
    (hdir : w.createDirOk = true)
    (hwrite : w.writePrivOk = true)
    (hgpg : w.gpgPrivate = GpgResult.accepted)
    (hroster : collect_public_keys (w.inputPublicKeys.getD defaultPublicKeysJson)
        (w.inputFluxKey.getD "") = Except.error e) :
    MainEvent.wrotePrivateKey ∈ (main w).1
    ∧ MainEvent.ranGpgImportPrivate ∈ (main w).1
    ∧ (main w).2 = MainOutcome.fatal e
    ∧ (∀ fs, MainEvent.located fs ∉ (main w).1)
    ∧ (∀ f ev, MainEvent.file f ev ∉ (main w).1) := by
  simp [main, hpk, hdir, hwrite, hgpg, hroster]

/-- Concrete world whose roster is present but malformed while the
primary credential imports cleanly. -/
def w10 : World :=
  ⟨some (DecodeResult.ok "priv"),
   some (UsersDataInput.jsonParse (Except.error "bad")),
   none, true, true, GpgResult.accepted,
   fun _ => ⟨DecodeResult.ok "", true, GpgResult.accepted⟩,
   ⟨true, []⟩,
   fun _ => ⟨CmdResult.succeeded, CmdResult.succeeded⟩⟩

/-- Witness for C10 at the concrete malformed-roster world. -/
theorem roster_error_after_primary_import_witness :
    MainEvent.wrotePrivateKey ∈ (main w10).1
    ∧ (main w10).2 = MainOutcome.fatal ("Failed to parse users data: " ++ "bad") := by
  have h := roster_error_after_primary_import w10 "priv"
    ("Failed to parse users data: " ++ "bad") rfl rfl rfl rfl rfl
  exact ⟨h.1, h.2.2.1⟩

/-- Exit-status characterization of the post-import tail of `main`: it
exits 0 exactly when the files were located and all of them succeeded. -/
theorem mainTail_exit_iff (pre : List MainEvent) (gi : GlobInput)
    (fb : FsPath → FileSpec)
    (hpre : ∀ fs, MainEvent.located fs ∉ pre) :
    ((mainTail pre gi fb).2.exitCode = 0 ↔
      ∃ fs, MainEvent.located fs ∈ (mainTail pre gi fb).1
        ∧ ∀ f ∈ fs, fileOk (fb f) = true)
    ∧ (MainEvent.located [] ∈ (mainTail pre gi fb).1 →
        (mainTail pre gi fb).2 = MainOutcome.ok) := by
  cases hg : find_secret_files gi with
  | error e =>
      have hT : mainTail pre gi fb = (pre, MainOutcome.fatal e) := by
        simp [mainTail, hg]
      rw [hT]
      refine ⟨⟨fun h0 => ?_, fun h0 => ?_⟩, fun hm => absurd hm (hpre [])⟩
      · exact absurd h0 (by simp [MainOutcome.exitCode])
      · rcases h0 with ⟨fs2, hm, _⟩
        exact absurd hm (hpre fs2)
  | ok fs =>
      by_cases hfs : fs.isEmpty
      · have h0 : fs = [] := List.isEmpty_iff.mp hfs
        subst h0
        have hT : mainTail pre gi fb
            = (pre ++ [MainEvent.located []], MainOutcome.ok) := by
          simp [mainTail, hg]
        rw [hT]
        exact ⟨⟨fun _ => ⟨[], by simp, by simp⟩, fun _ => rfl⟩, fun _ => rfl⟩
      · have hne : ¬ fs = [] := fun h0 => by simp [h0] at hfs
        have hmem : ∀ fs2, (MainEvent.located fs2 ∈
            pre ++ [MainEvent.located fs] ++ (processFiles fb fs).1 ↔ fs2 = fs) := by
          intro fs2
          constructor
          · intro hm
            rcases List.mem_append.mp hm with hm | hm
            · rcases List.mem_append.mp hm with hm | hm
              · exact absurd hm (hpre fs2)
              · simpa using hm
            · exact absurd hm (not_located_mem_processFiles fb fs fs2)
          · intro h0; subst h0; simp
        rcases Nat.eq_zero_or_pos ((processFiles fb fs).2.2) with he | he
        · have hz : ¬ (processFiles fb fs).2.2 > 0 := by omega
          have hT : mainTail pre gi fb
              = (pre ++ [MainEvent.located fs] ++ (processFiles fb fs).1,
                 MainOutcome.ok) := by
            simp only [mainTail, hg]
            rw [if_neg (by simpa using hfs), if_neg hz]
          rw [hT]
          exact ⟨⟨fun _ => ⟨fs, (hmem fs).mpr rfl, (processFiles_err_zero fb fs).mp he⟩,
                  fun _ => rfl⟩, fun _ => rfl⟩
        · have hz : (processFiles fb fs).2.2 > 0 := he
          have hT : mainTail pre gi fb
              = (pre ++ [MainEvent.located fs] ++ (processFiles fb fs).1,
                 MainOutcome.filesFailed) := by
            simp only [mainTail, hg]
            rw [if_neg (by simpa using hfs), if_pos hz]
          rw [hT]
          refine ⟨⟨fun h0 => ?_, fun h0 => ?_⟩, fun hm => ?_⟩
          · exact absurd h0 (by simp [MainOutcome.exitCode])
          · rcases h0 with ⟨fs2, hm, hall⟩
            have h0 := (hmem fs2).mp hm
            subst h0
            have := (processFiles_err_zero fb fs2).mpr hall
            omega
          · have h0 := (hmem []).mp hm
            exact absurd h0.symm hne

/-- C3: the process exits with status 0 exactly when the run located its
target files and every one of them succeeded (in particular a run that
locates zero files exits 0); any per-file failure or any fatal
precondition error yields a non-zero exit. -/
theorem exit_zero_iff_all_files_succeeded (w : World) :
    ((main w).2.exitCode = 0 ↔
      ∃ fs, MainEvent.located fs ∈ (main w).1
        ∧ ∀ f ∈ fs, fileOk (w.fileBehavior f) = true)
    ∧ (MainEvent.located [] ∈ (main w).1 → (main w).2 = MainOutcome.ok) := by
  obtain ⟨ipk, ipks, iflux, cdir, wpriv, gpriv, kb, gi, fb⟩ := w
  cases ipk with
  | none => simp [main, MainOutcome.exitCode]
  | some pk =>
    cases cdir with
    | false => simp [main, MainOutcome.exitCode]
    | true =>
      cases pk with
      | decodeErr => simp [main, MainOutcome.exitCode]
      | utf8Err => simp [main, MainOutcome.exitCode]
      | ok s =>
        cases wpriv with
        | false => simp [main, MainOutcome.exitCode]
        | true =>
          cases gpriv with
          | spawnErr => simp [main, MainOutcome.exitCode]
          | rejected => simp [main, MainOutcome.exitCode]
          | accepted =>
            simp only [main]
            cases hc : collect_public_keys (ipks.getD defaultPublicKeysJson)
                (iflux.getD "") with
            | error e => simp [MainOutcome.exitCode]
            | ok keys =>
              cases hk : keys.isEmpty with
              | true =>
                  simp only [hk, if_true]
                  exact mainTail_exit_iff _ gi fb (by simp)
              | false =>
                  simp only [hk, Bool.false_eq_true, if_false]
                  cases hi : (import_gpg_keys kb keys).2 with
                  | error e => simp [MainOutcome.exitCode]
                  | ok u => exact mainTail_exit_iff _ gi fb (by simp)

/-- Concrete world that imports cleanly and locates zero target files. -/
def w3 : World :=
  ⟨some (DecodeResult.ok "priv"), none, none, true, true, GpgResult.accepted,
   fun _ => ⟨DecodeResult.ok "", true, GpgResult.accepted⟩,
   ⟨true, []⟩,
   fun _ => ⟨CmdResult.succeeded, CmdResult.succeeded⟩⟩

/-- Witness for C3: a run that locates zero target files exits 0. -/
theorem exit_zero_iff_all_files_succeeded_witness :
    (main w3).2.exitCode = 0 :=
  (exit_zero_iff_all_files_succeeded w3).1.mpr
    ⟨[], by decide, by simp⟩

end SopsGen
